import Mathlib

/-!
Shallow embedding of `fastapi_app/main.py`, a research-study chat backend.

The embedding models the pure data flow of the handlers:

* `BOT_ID_MAP` — the fixed eight-entry bot table (lines 133-142).
* `log_to_sheets` — the audit logger with local-file fallback (lines 234-262).
  Fallibility of the remote spreadsheet append and of the local file write is
  modelled by boolean parameters; the Python `try/except` structure is mirrored
  and the function's result type is `Except`, so that "never raises" is the
  statement that the result is always `.ok`.
* `new_session` — the `POST /api/session` handler (lines 267-287).
* `chat` — the `POST /api/chat` handler (lines 292-364).  The request body is
  an `Option ChatPayload` (`none` = invalid JSON); the completion provider is
  an `Option String` (`none` = any provider failure, including an
  uninitialized client); the wall clock is a `Nat` parameter.  The handler
  returns the HTTP status and body, the updated conversation store, the list
  of audit-log calls it made, its console output, and whether the provider
  was reached.
* `AllowIframeMiddleware` — the response-header rewrite (lines 212-222).

String primitives from Python (`str.strip`, `"," .join`, `in`, `split`) are
modelled at the character-list level (`pyStrip`, `commaJoinFields`,
`hasFrameAncestors`, `cspSplit`) so that everything evaluates by kernel
reduction.
-/

/-- The fixed apology reply substituted on provider failure (line 357). -/
def APOLOGY : String := "Sorry, I couldn\x27t generate a response right now."

/-- The fixed experimental-arm label written into every log record (line 247). -/
def ARM_LABEL : String := "crt-intuitive"

/-- A role-tagged chat message, as stored in the conversation history. -/
structure Message where
  role : String
  content : String
deriving DecidableEq, Repr

/-- The process-wide conversation store: key `prolific_pid:bot_id` to message
list.  A missing key is the empty history (the handler initializes absent keys
to `[]` before appending, lines 322-323). -/
abbrev Conversations := String → List Message

def emptyConversations : Conversations := fun _ => []

/-- The fixed bot table mapping selectors "1".."8" to display identifiers
(lines 133-142). -/
def BOT_ID_MAP : List (String × String) :=
  [("1", "LongBot1"), ("2", "LongBot2"), ("3", "LongBot3"), ("4", "LongBot4"),
   ("5", "LongBot5"), ("6", "LongBot6"), ("7", "LongBot7"), ("8", "LongBot8")]

/-- Python `str.strip()`: drop leading and trailing whitespace. -/
def pyStrip (s : String) : String :=
  String.mk (((s.toList.dropWhile Char.isWhitespace).reverse.dropWhile
    Char.isWhitespace).reverse)

/-- Python `a or d` for an optional string `a`: `None` and `""` are falsy. -/
def orStr (a : Option String) (d : String) : String :=
  match a with
  | none => d
  | some s => if s = "" then d else s

/-- The JSON body of `POST /api/chat`; a missing field is `none`. -/
structure ChatPayload where
  prolific_pid : Option String := none
  test_pid : Option String := none
  pid : Option String := none
  bot : Option String := none
  message : Option String := none
deriving DecidableEq, Repr

/-- Line 305: `payload.get("prolific_pid") or payload.get("test_pid") or
payload.get("pid") or "NO_PID"`. -/
def resolvePid (p : ChatPayload) : String :=
  orStr p.prolific_pid (orStr p.test_pid (orStr p.pid "NO_PID"))

/-- Line 306: `payload.get("bot", "")`. -/
def resolveBotParam (p : ChatPayload) : String := p.bot.getD ""

/-- Line 307: `payload.get("message", "").strip()`. -/
def resolveMsg (p : ChatPayload) : String := pyStrip (p.message.getD "")

/-- Line 316: `BOT_ID_MAP.get(str(bot_param), str(bot_param))` — map the
selector through the table, passing unknown selectors through unchanged. -/
def resolveBotId (b : String) : String := (BOT_ID_MAP.lookup b).getD b

/-- Line 319: the conversation key `f"{prolific_pid}:{bot_id}"`. -/
def convKey (p : ChatPayload) : String :=
  resolvePid p ++ ":" ++ resolveBotId (resolveBotParam p)

/-- Lines 326-330: append a message, then trim to the last 10 entries when the
length exceeds 10 (`conversations[conv_key] = conversations[conv_key][-10:]`). -/
def trimmedAppend (h : List Message) (m : Message) : List Message :=
  if (h ++ [m]).length > 10 then (h ++ [m]).drop ((h ++ [m]).length - 10)
  else h ++ [m]

/-- One call made to the audit logger `log_to_sheets`. -/
structure LogCall where
  pid : String
  bot : String
  role : String
  content : String
deriving DecidableEq, Repr

/-- The JSON body returned by the chat handler. -/
inductive ChatBody where
  | err (msg : String)
  | ok (reply : String) (session_id : String)
deriving DecidableEq, Repr

/-- Everything observable about one run of the chat handler. -/
structure ChatResult where
  status : Nat
  body : ChatBody
  store : Conversations
  logs : List LogCall
  console : List String
  providerCalled : Bool

/-- The `POST /api/chat` handler (lines 292-364).  `payload = none` models a
body that is not valid JSON; `provider = some c` models a successful
completion call returning raw content `c` (the code then strips it, line 350);
`provider = none` models any failure of the provider path, including an
uninitialized client (lines 337-338). -/
def chat (store : Conversations) (payload : Option ChatPayload)
    (provider : Option String) (now : Nat) : ChatResult :=
  match payload with
  | none => ⟨400, .err "Invalid JSON body", store, [], [], false⟩
  | some p =>
    if resolveMsg p = "" then
      ⟨400, .err "Missing required field \x27message\x27", store, [], [], false⟩
    else if resolveBotParam p = "" then
      ⟨400, .err "Missing required field \x27bot\x27", store, [], [], false⟩
    else
      let prolific_pid := resolvePid p
      let bot_id := resolveBotId (resolveBotParam p)
      let conv_key := convKey p
      let h2 := trimmedAppend (store conv_key) ⟨"user", resolveMsg p⟩
      let userLog : LogCall := ⟨prolific_pid, bot_id, "user", resolveMsg p⟩
      let session_like := prolific_pid ++ ":" ++ bot_id ++ ":" ++ toString now
      match provider with
      | some content =>
        let reply := pyStrip content
        ⟨200, .ok reply session_like,
         fun k => if k = conv_key then h2 ++ [⟨"assistant", reply⟩] else store k,
         [userLog, ⟨prolific_pid, bot_id, "assistant", reply⟩], [], true⟩
      | none =>
        ⟨200, .ok APOLOGY session_like,
         fun k => if k = conv_key then h2 else store k,
         [userLog, ⟨prolific_pid, bot_id, "assistant", APOLOGY⟩],
         ["OpenAI call failed"], true⟩

/-- Run a sequence of chat requests (payload, provider outcome, clock) against
the store, threading the store through. -/
def runChats (store : Conversations) :
    List (Option ChatPayload × Option String × Nat) → Conversations
  | [] => store
  | r :: rs => runChats ((chat store r.1 r.2.1 r.2.2).store) rs

/-! ### Per-key turn model

For the history-window claims we track one conversation key across turns.
`turnHist` is exactly what one run of the chat handler does to the history at
its own key (user append + trim, lines 326-330, then on provider success the
assistant append, line 353); `turnMsgs` is the sequence of messages that turn
appends; `allMsgs` is the full append sequence of a run. -/

def turnMsgs (u : String) (prov : Option String) : List Message :=
  match prov with
  | some c => [⟨"user", u⟩, ⟨"assistant", pyStrip c⟩]
  | none => [⟨"user", u⟩]

def turnHist (h : List Message) (u : String) (prov : Option String) : List Message :=
  match prov with
  | some c => trimmedAppend h ⟨"user", u⟩ ++ [⟨"assistant", pyStrip c⟩]
  | none => trimmedAppend h ⟨"user", u⟩

def runTurns (h : List Message) : List (String × Option String) → List Message
  | [] => h
  | t :: ts => runTurns (turnHist h t.1 t.2) ts

def allMsgs : List (String × Option String) → List Message
  | [] => []
  | t :: ts => turnMsgs t.1 t.2 ++ allMsgs ts

/-! ### Remaining source components and concrete inputs for the claims -/

/-- The observable effects of one `log_to_sheets` call: rows appended to the
remote sheet, lines appended to the local fallback file
`sheet_log_backup.txt`, and console output. -/
structure LogEffects where
  remoteRows : List (List String)
  backupLines : List String
  console : List String
deriving DecidableEq, Repr

/-- The claim-side meaning of "comma-joined": fields joined by ", ", as in the
fallback f-string of line 259. -/
def commaJoinFields : List String → String
  | [] => ""
  | [x] => x
  | x :: xs => x ++ ", " ++ commaJoinFields xs

/-- Lines 234-262.  `sheetInitialized = false` models `sheet is None` (early
return, lines 239-241); `remoteAppendFails` models `sheet.append_row(row)`
raising; `backupWriteFails` models the local file write raising.  The result
type is `Except String LogEffects`: an uncaught Python exception would be
`.error`, and the try/except structure of the source makes every path `.ok`.
The timestamp `ts` stands for `now_iso()` (line 244). -/
def log_to_sheets (sheetInitialized remoteAppendFails backupWriteFails : Bool)
    (prolific_pid bot_id role content ts : String) : Except String LogEffects :=
  if sheetInitialized = false then
    .ok ⟨[], [], ["Skipping Google Sheets log; sheet is not initialized."]⟩
  else
    let pid_str := if prolific_pid = "" then "" else prolific_pid
    let bot_str := if bot_id = "" then "" else bot_id
    let arm_str := ARM_LABEL
    let role_str := role
    let content_str := content
    let row := [ts, pid_str, bot_str, arm_str, role_str, content_str]
    if remoteAppendFails = false then
      .ok ⟨[row], [], ["Logged to Sheets"]⟩
    else
      if backupWriteFails = false then
        .ok ⟨[], [ts ++ ", " ++ pid_str ++ ", " ++ bot_str ++ ", " ++ arm_str ++
          ", " ++ role_str ++ ", " ++ content_str ++ "\n"],
          ["Google Sheets append failed",
           "Backed up to local file: sheet_log_backup.txt"]⟩
      else
        .ok ⟨[], [], ["Google Sheets append failed", "Backup logging also failed"]⟩

/-- The response of `POST /api/session` plus the log call it makes. -/
structure SessionResult where
  status : Nat
  session_id : String
  prolific_pid : String
  bot_id : String
  logs : List LogCall
deriving DecidableEq, Repr

/-- Lines 267-287.  The query parameters are `Option String` (absent = `none`;
note an explicitly empty `pid=` yields `""`, not the default); the generated
uuid-derived id is a parameter. -/
def new_session (pid bot : Option String) (sessionId : String) : SessionResult :=
  let prolific_pid := pid.getD "NO_PID"
  let bot_param := bot.getD ""
  let bot_id := if bot_param = "" then "UnknownBot"
    else (BOT_ID_MAP.lookup bot_param).getD bot_param
  ⟨200, sessionId, prolific_pid, bot_id,
   [⟨prolific_pid, bot_id, "session", "session_created:" ++ sessionId⟩]⟩

/-- Occurrence of `needle` as a contiguous run anywhere in the list — the
meaning of Python's substring test `in`. -/
def containsSeq (needle : List Char) : List Char → Bool
  | [] => needle.isEmpty
  | c :: t => needle.isPrefixOf (c :: t) || containsSeq needle t

/-- Python `"frame-ancestors" in part`: substring containment, at the
character-list level. -/
def hasFrameAncestors (part : String) : Bool :=
  containsSeq ("frame-ancestors".toList) part.toList

/-- Python `csp.split(";")`. -/
def cspSplit (c : String) : List String :=
  (c.toList.splitOn ';').map String.mk

/-- Python `";".join(parts)`. -/
def joinSemi (parts : List String) : String :=
  String.mk (List.intercalate [';'] (parts.map String.toList))

/-- The response headers the middleware touches; everything else is carried
through unchanged in `others`. -/
structure Headers where
  xFrameOptions : Option String
  csp : Option String
  others : List (String × String)
deriving DecidableEq, Repr

/-- Lines 212-222: pop any X-Frame-Options header and set it to "ALLOWALL";
if a non-empty Content-Security-Policy is present, drop every ";"-separated
part containing "frame-ancestors" and re-join the rest.  (`if csp:` is falsy
for an empty header value, so an empty CSP is left alone.) -/
def AllowIframeMiddleware (h : Headers) : Headers :=
  match h.csp with
  | none => ⟨some "ALLOWALL", h.csp, h.others⟩
  | some c =>
    if c = "" then ⟨some "ALLOWALL", h.csp, h.others⟩
    else ⟨some "ALLOWALL",
      some (joinSemi ((cspSplit c).filter (fun part => !(hasFrameAncestors part)))),
      h.others⟩

def c1Payload : ChatPayload := { bot := some "1", message := some "hi" }

def c1Requests : List (Option ChatPayload × Option String × Nat) :=
  List.replicate 6 (some c1Payload, some "ok", 0)

def c2Turns : List (String × Option String) := List.replicate 10 ("m", none)

def c3Payload : ChatPayload := { bot := some "1", message := some "hi" }

def c4Payload : ChatPayload := { bot := some "1", message := some "   " }

def c10Payload : ChatPayload := { bot := some "2", message := some "hey" }

def c5Payload : ChatPayload :=
  { prolific_pid := some "P1", bot := some "99", message := some "hello" }

def c5WitnessPayload : ChatPayload :=
  { prolific_pid := some "P1", bot := some "3", message := some "hello" }

def c8Payload : ChatPayload :=
  { prolific_pid := some "", test_pid := some "T", bot := some "1",
    message := some "hi" }

def c9Headers : Headers :=
  ⟨some "DENY", some "default-src a;frame-ancestors b;img-src c", [("server", "x")]⟩

/-- The chat handler's effect on the history at its own key is exactly
`turnHist`. -/
lemma chat_store_convKey (store : Conversations) (p : ChatPayload)
    (prov : Option String) (now : Nat)
    (hm : resolveMsg p ≠ "") (hb : resolveBotParam p ≠ "") :
    (chat store (some p) prov now).store (convKey p) =
      turnHist (store (convKey p)) (resolveMsg p) prov := by
  cases prov <;> simp [chat, hm, hb, turnHist]

lemma trimmedAppend_length (h : List Message) (m : Message) :
    (trimmedAppend h m).length = min (h.length + 1) 10 := by
  unfold trimmedAppend
  split
  · simp_all
    omega
  · simp_all

lemma trimmedAppend_length_le (h : List Message) (m : Message) :
    (trimmedAppend h m).length ≤ 10 := by
  rw [trimmedAppend_length]; omega

lemma trimmedAppend_suffix (h : List Message) (m : Message) :
    ∃ t, h ++ [m] = t ++ trimmedAppend h m := by
  unfold trimmedAppend
  split
  · exact ⟨(h ++ [m]).take ((h ++ [m]).length - 10), (List.take_append_drop _ _).symm⟩
  · exact ⟨[], rfl⟩

lemma trimmedAppend_inv (h A : List Message) (m : Message)
    (hsuf : ∃ t, A = t ++ h) (hinv : h = A ∨ 10 ≤ h.length) :
    (∃ t, A ++ [m] = t ++ trimmedAppend h m) ∧
      (trimmedAppend h m = A ++ [m] ∨ 10 ≤ (trimmedAppend h m).length) := by
  obtain ⟨t, rfl⟩ := hsuf
  constructor
  · obtain ⟨u, hu⟩ := trimmedAppend_suffix h m
    exact ⟨t ++ u, by rw [List.append_assoc, hu, ← List.append_assoc]⟩
  · rcases hinv with h1 | h1
    · have ht : t = [] := by
        have hlen := congrArg List.length h1
        simp [List.length_append] at hlen
        exact hlen
      subst ht
      simp only [List.nil_append]
      by_cases hl : (h ++ [m]).length > 10
      · right
        rw [trimmedAppend_length]
        simp [List.length_append] at hl ⊢
        omega
      · left
        unfold trimmedAppend
        rw [if_neg hl]
    · right
      rw [trimmedAppend_length]
      omega

lemma turnHist_inv (h A : List Message) (u : String) (prov : Option String)
    (hsuf : ∃ t, A = t ++ h) (hinv : h = A ∨ 10 ≤ h.length) :
    (∃ t, A ++ turnMsgs u prov = t ++ turnHist h u prov) ∧
      (turnHist h u prov = A ++ turnMsgs u prov ∨ 10 ≤ (turnHist h u prov).length) := by
  cases prov with
  | none => simpa [turnMsgs, turnHist] using trimmedAppend_inv h A ⟨"user", u⟩ hsuf hinv
  | some c =>
      obtain ⟨hs, hi⟩ := trimmedAppend_inv h A ⟨"user", u⟩ hsuf hinv
      constructor
      · obtain ⟨t, ht⟩ := hs
        refine ⟨t, ?_⟩
        show A ++ [⟨"user", u⟩, ⟨"assistant", pyStrip c⟩] =
          t ++ (trimmedAppend h ⟨"user", u⟩ ++ [⟨"assistant", pyStrip c⟩])
        rw [show A ++ [(⟨"user", u⟩ : Message), ⟨"assistant", pyStrip c⟩] =
              (A ++ [(⟨"user", u⟩ : Message)]) ++ [⟨"assistant", pyStrip c⟩] by simp,
           ht, List.append_assoc]
      · rcases hi with hi | hi
        · left
          show trimmedAppend h ⟨"user", u⟩ ++ [⟨"assistant", pyStrip c⟩] =
            A ++ [⟨"user", u⟩, ⟨"assistant", pyStrip c⟩]
          rw [hi]
          simp
        · right
          show 10 ≤ (trimmedAppend h ⟨"user", u⟩ ++ [(⟨"assistant", pyStrip c⟩ : Message)]).length
          simp only [List.length_append]
          omega

lemma runTurns_inv (ts : List (String × Option String)) :
    ∀ h A, (∃ t, A = t ++ h) → (h = A ∨ 10 ≤ h.length) →
    (∃ t, A ++ allMsgs ts = t ++ runTurns h ts) ∧
      (runTurns h ts = A ++ allMsgs ts ∨ 10 ≤ (runTurns h ts).length) := by
  induction ts with
  | nil =>
      intro h A hs hi
      constructor
      · simpa [allMsgs, runTurns] using hs
      · rcases hi with hi | hi
        · left; simpa [allMsgs, runTurns] using hi
        · right; simpa [runTurns] using hi
  | cons t ts ih =>
      intro h A hs hi
      obtain ⟨hs2, hi2⟩ := turnHist_inv h A t.1 t.2 hs hi
      have := ih (turnHist h t.1 t.2) (A ++ turnMsgs t.1 t.2) hs2 hi2
      simpa [allMsgs, runTurns, List.append_assoc] using this

lemma runTurns_nil_inv (ts : List (String × Option String)) :
    (∃ t, allMsgs ts = t ++ runTurns [] ts) ∧
      (runTurns [] ts = allMsgs ts ∨ 10 ≤ (runTurns [] ts).length) := by
  simpa using runTurns_inv ts [] []
    (⟨[], by simp⟩ : ∃ t, ([] : List Message) = t ++ []) (Or.inl rfl)

lemma drop_sub_of_append (t s : List Message) (n : Nat) (hn : n ≤ s.length) :
    (t ++ s).drop ((t ++ s).length - n) = s.drop (s.length - n) := by
  have heq : (t ++ s).length - n = t.length + (s.length - n) := by
    simp [List.length_append]
    omega
  rw [heq, List.drop_append]

/-! ### Claims C1 and C2: the history length bound and the sliding window -/

lemma chat_store_length_le (store : Conversations) (pl : Option ChatPayload)
    (prov : Option String) (now : Nat) (k : String)
    (hst : (store k).length ≤ 11) :
    ((chat store pl prov now).store k).length ≤ 11 := by
  cases pl with
  | none => simpa [chat] using hst
  | some p =>
      by_cases hm : resolveMsg p = ""
      · simpa [chat, hm] using hst
      · by_cases hb : resolveBotParam p = ""
        · simpa [chat, hm, hb] using hst
        · cases prov with
          | some c =>
              simp only [chat, if_neg hm, if_neg hb]
              by_cases hk : k = convKey p
              · have := trimmedAppend_length_le (store (convKey p)) ⟨"user", resolveMsg p⟩
                simp [hk, List.length_append]
                omega
              · simpa [hk] using hst
          | none =>
              simp only [chat, if_neg hm, if_neg hb]
              by_cases hk : k = convKey p
              · have := trimmedAppend_length_le (store (convKey p)) ⟨"user", resolveMsg p⟩
                simp [hk]
                omega
              · simpa [hk] using hst

/-- C1 (counterexample): the claimed invariant "length ≤ 10 after every
operation of the chat handler" is false.  Six chat turns for bot "1" with a
successful provider leave the stored history for key `NO_PID:LongBot1` at
length 11: the handler trims only after the user-message append (lines
329-330); the assistant-reply append (line 353) is not followed by a trim, so
a saturated history grows to 11 when the reply is appended. -/
theorem claim1_counterexample :
    ((runChats emptyConversations c1Requests) "NO_PID:LongBot1").length = 11 := by
  decide

/-- C1 (amended): after every operation of the chat handler the stored history
at every key has length at most 11, not 10.  The ≤ 10 bound is enforced only
by the trim that follows the user-message append; the assistant-reply append
can leave the history at length 11 until the next turn's trim. -/
theorem claim1_history_length_le_eleven
    (reqs : List (Option ChatPayload × Option String × Nat)) (k : String) :
    ((runChats emptyConversations reqs) k).length ≤ 11 := by
  have main : ∀ (rs : List (Option ChatPayload × Option String × Nat))
      (store : Conversations), (∀ k2, (store k2).length ≤ 11) →
      ∀ k2, ((runChats store rs) k2).length ≤ 11 := by
    intro rs
    induction rs with
    | nil => intro store h k2; simpa [runChats] using h k2
    | cons r rs2 ih =>
        intro store h k2
        simp only [runChats]
        exact ih _ (fun k3 => chat_store_length_le store r.1 r.2.1 r.2.2 k3 (h k3)) k2
  exact main reqs emptyConversations (fun _ => by simp [emptyConversations]) k

/-- C2: whenever more than 10 messages have been appended to one conversation
key, the history immediately after the trim step (the state the handler stores
at lines 329-330, before the assistant append) has length exactly 10 and is
exactly the last 10 entries of the full append sequence, in insertion order.
`runTurns [] ts` is the stored history after the earlier turns, and
`trimmedAppend` is the user-append-plus-trim step of the current turn. -/
theorem claim2_trim_keeps_last_ten_in_order
    (ts : List (String × Option String)) (u : String)
    (hmore : 10 < (allMsgs ts).length + 1) :
    (trimmedAppend (runTurns [] ts) ⟨"user", u⟩).length = 10 ∧
    trimmedAppend (runTurns [] ts) ⟨"user", u⟩ =
      (allMsgs ts ++ [(⟨"user", u⟩ : Message)]).drop
        ((allMsgs ts ++ [(⟨"user", u⟩ : Message)]).length - 10) := by
  obtain ⟨⟨t, ht⟩, hinv⟩ := runTurns_nil_inv ts
  have hlen : 10 ≤ (runTurns [] ts).length := by
    rcases hinv with heq | h10
    · rw [heq]; omega
    · exact h10
  have h1len : 10 < ((runTurns [] ts) ++ [(⟨"user", u⟩ : Message)]).length := by
    simp [List.length_append]; omega
  constructor
  · rw [trimmedAppend_length]; omega
  · have hA : allMsgs ts ++ [(⟨"user", u⟩ : Message)] =
        t ++ ((runTurns [] ts) ++ [(⟨"user", u⟩ : Message)]) := by
      rw [ht, List.append_assoc]
    rw [hA, drop_sub_of_append t _ 10 (by simp [List.length_append]; omega)]
    unfold trimmedAppend
    rw [if_pos h1len]

/-- C2 (witness): ten provider-failure turns append 10 user messages; the 11th
user append trims the history back to exactly the last 10 messages. -/
theorem claim2_witness :
    (trimmedAppend (runTurns [] c2Turns) ⟨"user", "u"⟩).length = 10 ∧
    trimmedAppend (runTurns [] c2Turns) ⟨"user", "u"⟩ =
      (allMsgs c2Turns ++ [(⟨"user", "u"⟩ : Message)]).drop
        ((allMsgs c2Turns ++ [(⟨"user", "u"⟩ : Message)]).length - 10) :=
  claim2_trim_keeps_last_ten_in_order c2Turns "u" (by decide)

/-! ### Claim C3: provider failure is swallowed into a 200 apology reply -/

/-- C3: for every valid chat turn in which the completion provider fails
(including an uninitialized client, both modelled by `provider = none`), the
response is a 200 whose reply is the fixed apology string, both the user and
the assistant log records are still emitted, and no HTTP error is produced. -/
theorem claim3_provider_failure_apology (store : Conversations) (p : ChatPayload)
    (now : Nat) (hm : resolveMsg p ≠ "") (hb : resolveBotParam p ≠ "") :
    (chat store (some p) none now).status = 200 ∧
    (chat store (some p) none now).body =
      .ok APOLOGY
        (resolvePid p ++ ":" ++ resolveBotId (resolveBotParam p) ++ ":" ++ toString now) ∧
    (chat store (some p) none now).logs =
      [⟨resolvePid p, resolveBotId (resolveBotParam p), "user", resolveMsg p⟩,
       ⟨resolvePid p, resolveBotId (resolveBotParam p), "assistant", APOLOGY⟩] := by
  refine ⟨?_, ?_, ?_⟩ <;> simp [chat, hm, hb, convKey]

/-- C3 (witness): a concrete failing turn for bot "1" and message "hi". -/
theorem claim3_witness :
    (chat emptyConversations (some c3Payload) none 0).status = 200 ∧
    (chat emptyConversations (some c3Payload) none 0).body =
      .ok APOLOGY
        (resolvePid c3Payload ++ ":" ++ resolveBotId (resolveBotParam c3Payload) ++
          ":" ++ toString 0) ∧
    (chat emptyConversations (some c3Payload) none 0).logs =
      [⟨resolvePid c3Payload, resolveBotId (resolveBotParam c3Payload), "user",
         resolveMsg c3Payload⟩,
       ⟨resolvePid c3Payload, resolveBotId (resolveBotParam c3Payload), "assistant",
         APOLOGY⟩] :=
  claim3_provider_failure_apology emptyConversations c3Payload 0 (by decide) (by decide)

/-! ### Claim C4: field validation returns 400 with no side effects -/

/-- C4: when the `message` field is missing, empty, or whitespace-only after
trimming (all of which make `resolveMsg` empty), or the `bot` field is missing
or blank, the handler returns a 400 error body and performs no side effects:
the store is unchanged, no log call is made, and the provider is not called. -/
theorem claim4_validation_400_no_side_effects (store : Conversations)
    (p : ChatPayload) (prov : Option String) (now : Nat)
    (hval : resolveMsg p = "" ∨ resolveBotParam p = "") :
    (chat store (some p) prov now).status = 400 ∧
    (∃ e, (chat store (some p) prov now).body = .err e) ∧
    (chat store (some p) prov now).store = store ∧
    (chat store (some p) prov now).logs = [] ∧
    (chat store (some p) prov now).providerCalled = false := by
  by_cases hm : resolveMsg p = ""
  · have he : chat store (some p) prov now =
        ⟨400, .err "Missing required field \x27message\x27", store, [], [], false⟩ := by
      simp [chat, hm]
    rw [he]
    exact ⟨rfl, ⟨_, rfl⟩, rfl, rfl, rfl⟩
  · rcases hval with h | hb
    · exact absurd h hm
    · have he : chat store (some p) prov now =
          ⟨400, .err "Missing required field \x27bot\x27", store, [], [], false⟩ := by
        simp [chat, hm, hb]
      rw [he]
      exact ⟨rfl, ⟨_, rfl⟩, rfl, rfl, rfl⟩

/-- C4 (witness): a whitespace-only message is rejected with 400 and leaves no
trace. -/
theorem claim4_witness :
    (chat emptyConversations (some c4Payload) (some "ok") 0).status = 400 ∧
    (∃ e, (chat emptyConversations (some c4Payload) (some "ok") 0).body = .err e) ∧
    (chat emptyConversations (some c4Payload) (some "ok") 0).store = emptyConversations ∧
    (chat emptyConversations (some c4Payload) (some "ok") 0).logs = [] ∧
    (chat emptyConversations (some c4Payload) (some "ok") 0).providerCalled = false :=
  claim4_validation_400_no_side_effects emptyConversations c4Payload (some "ok") 0
    (Or.inl (by decide))

/-! ### Claim C10: the apology is returned and logged but never stored -/

/-- C10: on provider failure the stored history at the turn's key is exactly
the user-append-plus-trim result — the assistant append (line 353) is inside
the `try` and is skipped — so the history ends with the user message, the
apology is returned and logged, and any assistant-role message in the stored
history was already there before the turn (the apology is never stored as
context for later provider calls). -/
theorem claim10_apology_never_stored (store : Conversations) (p : ChatPayload)
    (now : Nat) (hm : resolveMsg p ≠ "") (hb : resolveBotParam p ≠ "") :
    (chat store (some p) none now).store (convKey p) =
      trimmedAppend (store (convKey p)) ⟨"user", resolveMsg p⟩ ∧
    (chat store (some p) none now).body =
      .ok APOLOGY
        (resolvePid p ++ ":" ++ resolveBotId (resolveBotParam p) ++ ":" ++ toString now) ∧
    (chat store (some p) none now).logs =
      [⟨resolvePid p, resolveBotId (resolveBotParam p), "user", resolveMsg p⟩,
       ⟨resolvePid p, resolveBotId (resolveBotParam p), "assistant", APOLOGY⟩] ∧
    ∀ m ∈ (chat store (some p) none now).store (convKey p),
      m.role = "assistant" → m ∈ store (convKey p) := by
  have hstore : (chat store (some p) none now).store (convKey p) =
      trimmedAppend (store (convKey p)) ⟨"user", resolveMsg p⟩ := by
    simp [chat, hm, hb]
  refine ⟨hstore, by simp [chat, hm, hb, convKey], by simp [chat, hm, hb], ?_⟩
  intro m hmem hrole
  rw [hstore] at hmem
  unfold trimmedAppend at hmem
  have huser : m ∈ store (convKey p) ++ [(⟨"user", resolveMsg p⟩ : Message)] := by
    split at hmem
    · exact List.drop_subset _ _ hmem
    · exact hmem
  rcases List.mem_append.1 huser with h | h
  · exact h
  · simp only [List.mem_singleton] at h
    rw [h] at hrole
    exact absurd (show ("user" : String) = "assistant" from hrole) (by decide)

/-- C10 (witness): a concrete failing turn stores only the user message. -/
theorem claim10_witness :
    (chat emptyConversations (some c10Payload) none 0).store (convKey c10Payload) =
      trimmedAppend (emptyConversations (convKey c10Payload))
        ⟨"user", resolveMsg c10Payload⟩ ∧
    (chat emptyConversations (some c10Payload) none 0).body =
      .ok APOLOGY
        (resolvePid c10Payload ++ ":" ++ resolveBotId (resolveBotParam c10Payload) ++
          ":" ++ toString 0) ∧
    (chat emptyConversations (some c10Payload) none 0).logs =
      [⟨resolvePid c10Payload, resolveBotId (resolveBotParam c10Payload), "user",
         resolveMsg c10Payload⟩,
       ⟨resolvePid c10Payload, resolveBotId (resolveBotParam c10Payload), "assistant",
         APOLOGY⟩] ∧
    ∀ m ∈ (chat emptyConversations (some c10Payload) none 0).store (convKey c10Payload),
      m.role = "assistant" → m ∈ emptyConversations (convKey c10Payload) :=
  claim10_apology_never_stored emptyConversations c10Payload 0 (by decide) (by decide)

/-! ### Claim C5: bot selector resolution through the fixed table -/

/-- C5 (amended): on every valid chat turn the resolved bot identifier
`resolveBotId` (table entry for known selectors, the selector itself
otherwise) is used in every log record of the turn; selector "3" resolves to
"LongBot3" and the unmapped selector "99" passes through unchanged.  No
warning is recorded for an unmapped selector: the handler's only console
output is the provider-failure message. -/
theorem claim5_bot_resolution (store : Conversations) (p : ChatPayload)
    (prov : Option String) (now : Nat)
    (hm : resolveMsg p ≠ "") (hb : resolveBotParam p ≠ "") :
    (∀ lc ∈ (chat store (some p) prov now).logs,
      lc.bot = resolveBotId (resolveBotParam p)) ∧
    resolveBotId "3" = "LongBot3" ∧
    resolveBotId "99" = "99" ∧
    ((chat store (some p) prov now).console = [] ∨
      (chat store (some p) prov now).console = ["OpenAI call failed"]) := by
  refine ⟨?_, by decide, by decide, ?_⟩
  · cases prov <;> simp [chat, hm, hb]
  · cases prov
    · right; simp [chat, hm, hb]
    · left; simp [chat, hm, hb]

/-- C5 (counterexample): the claim also asserts that an unmapped selector such
as "99" causes a warning to be recorded, but the handler records none: on a
successful turn for participant "P1", bot "99", message "hello", the console
output is empty and the only records emitted are the ordinary user/assistant
log records (both carrying bot "99").  The source (lines 315-316) maps the
selector with a plain `dict.get` default and emits no warning anywhere. -/
theorem claim5_counterexample :
    (chat emptyConversations (some c5Payload) (some "ok") 0).console = [] ∧
    (chat emptyConversations (some c5Payload) (some "ok") 0).logs =
      [⟨"P1", "99", "user", "hello"⟩, ⟨"P1", "99", "assistant", "ok"⟩] := by
  decide

/-- C5 (witness): the amended theorem at participant "P1", bot "3",
message "hello" on a successful turn. -/
theorem claim5_witness :
    (∀ lc ∈ (chat emptyConversations (some c5WitnessPayload) (some "ok") 0).logs,
      lc.bot = resolveBotId (resolveBotParam c5WitnessPayload)) ∧
    resolveBotId "3" = "LongBot3" ∧
    resolveBotId "99" = "99" ∧
    ((chat emptyConversations (some c5WitnessPayload) (some "ok") 0).console = [] ∨
      (chat emptyConversations (some c5WitnessPayload) (some "ok") 0).console =
        ["OpenAI call failed"]) :=
  claim5_bot_resolution emptyConversations c5WitnessPayload (some "ok") 0
    (by decide) (by decide)

/-! ### Claim C8: participant-identifier precedence -/

lemma orStr_cons (a : Option String) (rest : List String) (d : String) :
    orStr a ((rest.filter (fun s => s != "")).headD d) =
      (((a.getD "") :: rest).filter (fun s => s != "")).headD d := by
  cases a with
  | none => simp [orStr, List.filter_cons]
  | some s =>
      by_cases h : s = ""
      · subst h
        simp [orStr, List.filter_cons]
      · simp [orStr, h, List.filter_cons, List.headD]

/-- C8 (amended): the participant identifier is the first of the fields
`prolific_pid`, `test_pid`, `pid` that is present AND non-empty — Python's
`or` chain (line 305) skips falsy values, so a field present with value `""`
is passed over — and the sentinel "NO_PID" is used when all three are absent
or empty. -/
theorem claim8_first_nonempty_pid_wins (p : ChatPayload) :
    resolvePid p =
      ([p.prolific_pid.getD "", p.test_pid.getD "", p.pid.getD ""].filter
        (fun s => s != "")).headD "NO_PID" := by
  have h1 : orStr p.pid "NO_PID" =
      (([p.pid.getD ""]).filter (fun s => s != "")).headD "NO_PID" := by
    simpa using orStr_cons p.pid [] "NO_PID"
  rw [resolvePid, h1, orStr_cons p.test_pid [p.pid.getD ""] "NO_PID",
    orStr_cons p.prolific_pid [p.test_pid.getD "", p.pid.getD ""] "NO_PID"]

/-- C8 (counterexample): the claim as stated says the FIRST PRESENT field
wins; here `prolific_pid` is present (with value "") yet the identifier used
for the turn — in the resolution and in both log records — is the `test_pid`
value "T", because Python's `or` treats the empty string as absent. -/
theorem claim8_counterexample :
    c8Payload.prolific_pid = some "" ∧
    resolvePid c8Payload = "T" ∧
    (chat emptyConversations (some c8Payload) (some "ok") 0).logs =
      [⟨"T", "LongBot1", "user", "hi"⟩, ⟨"T", "LongBot1", "assistant", "ok"⟩] := by
  decide

/-! ### Claim C6: the audit logger `log_to_sheets` -/

/-- C6: the audit logger never raises (every path returns `.ok`); whenever the
remote append raises and the fallback write succeeds, the fallback file gets
exactly one comma-joined line carrying the same row — same field order and
values (timestamp, participant, bot, arm label, role, content) — that the
healthy remote path would have appended; and when the fallback write also
fails, that failure is swallowed too. -/
theorem claim6_logger_never_raises_and_falls_back
    (si rf bf : Bool) (pid bot role content ts : String) :
    (∃ eff, log_to_sheets si rf bf pid bot role content ts = .ok eff) ∧
    (si = true → rf = true → bf = false →
      ∃ eff row,
        log_to_sheets si rf bf pid bot role content ts = .ok eff ∧
        log_to_sheets si false bf pid bot role content ts =
          .ok ⟨[row], [], ["Logged to Sheets"]⟩ ∧
        eff.remoteRows = [] ∧
        eff.backupLines = [commaJoinFields row ++ "\n"]) ∧
    (si = true → rf = true → bf = true →
      ∃ eff, log_to_sheets si rf bf pid bot role content ts = .ok eff ∧
        eff.backupLines = [] ∧ eff.remoteRows = []) := by
  refine ⟨?_, ?_, ?_⟩
  · cases si <;> cases rf <;> cases bf <;> exact ⟨_, rfl⟩
  · rintro rfl rfl rfl
    refine ⟨⟨[], [ts ++ ", " ++ (if pid = "" then "" else pid) ++ ", " ++
        (if bot = "" then "" else bot) ++ ", " ++ ARM_LABEL ++ ", " ++ role ++
        ", " ++ content ++ "\n"],
        ["Google Sheets append failed",
         "Backed up to local file: sheet_log_backup.txt"]⟩,
      [ts, (if pid = "" then "" else pid), (if bot = "" then "" else bot),
        ARM_LABEL, role, content], rfl, rfl, rfl, ?_⟩
    simp [commaJoinFields, String.append_assoc]
  · rintro rfl rfl rfl
    exact ⟨⟨[], [], ["Google Sheets append failed", "Backup logging also failed"]⟩,
      rfl, rfl, rfl⟩

/-- C6 (witness): a concrete failing remote append with a healthy fallback. -/
theorem claim6_witness :
    (∃ eff, log_to_sheets true true false "P1" "LongBot1" "user" "hi" "T1" = .ok eff) ∧
    (∃ eff row,
      log_to_sheets true true false "P1" "LongBot1" "user" "hi" "T1" = .ok eff ∧
      log_to_sheets true false false "P1" "LongBot1" "user" "hi" "T1" =
        .ok ⟨[row], [], ["Logged to Sheets"]⟩ ∧
      eff.remoteRows = [] ∧
      eff.backupLines = [commaJoinFields row ++ "\n"]) := by
  obtain ⟨h1, h2, _⟩ :=
    claim6_logger_never_raises_and_falls_back true true false "P1" "LongBot1"
      "user" "hi" "T1"
  exact ⟨h1, h2 rfl rfl rfl⟩

/-! ### Claim C7: the session-creation endpoint -/

/-- C7: every `POST /api/session` gets a 200 with `session_id`,
`prolific_pid` and `bot_id`, where `prolific_pid` defaults to "NO_PID" when
the `pid` parameter is absent, and `bot_id` is "UnknownBot" when `bot` is
absent or empty, otherwise the table entry for the selector, or the selector
verbatim when it is not in the table. -/
theorem claim7_session_response (pid bot : Option String) (sid : String) :
    (new_session pid bot sid).status = 200 ∧
    (new_session pid bot sid).session_id = sid ∧
    (pid = none → (new_session pid bot sid).prolific_pid = "NO_PID") ∧
    (∀ s, pid = some s → (new_session pid bot sid).prolific_pid = s) ∧
    ((bot = none ∨ bot = some "") → (new_session pid bot sid).bot_id = "UnknownBot") ∧
    (∀ b v, bot = some b → b ≠ "" → BOT_ID_MAP.lookup b = some v →
      (new_session pid bot sid).bot_id = v) ∧
    (∀ b, bot = some b → b ≠ "" → BOT_ID_MAP.lookup b = none →
      (new_session pid bot sid).bot_id = b) := by
  refine ⟨rfl, rfl, ?_, ?_, ?_, ?_, ?_⟩
  · rintro rfl; rfl
  · rintro s rfl; rfl
  · rintro (rfl | rfl) <;> rfl
  · rintro b v rfl hb hv
    simp [new_session, hb, hv]
  · rintro b rfl hb hv
    simp [new_session, hb, hv]

/-- C7 (witness): concrete sessions — mapped selector "3", unmapped selector
"99", absent selector, absent pid. -/
theorem claim7_witness :
    (new_session none (some "3") "S1").status = 200 ∧
    (new_session none (some "3") "S1").session_id = "S1" ∧
    (new_session none (some "3") "S1").prolific_pid = "NO_PID" ∧
    (new_session none (some "3") "S1").bot_id = "LongBot3" ∧
    (new_session (some "P9") (some "99") "S2").bot_id = "99" ∧
    (new_session (some "P9") none "S3").bot_id = "UnknownBot" := by
  obtain ⟨a1, b1, c1, _, _, f1, _⟩ := claim7_session_response none (some "3") "S1"
  obtain ⟨_, _, _, _, _, _, g2⟩ := claim7_session_response (some "P9") (some "99") "S2"
  obtain ⟨_, _, _, _, e3, _, _⟩ := claim7_session_response (some "P9") none "S3"
  exact ⟨a1, b1, c1 rfl, f1 "3" "LongBot3" rfl (by decide) (by decide),
    g2 "99" rfl (by decide) (by decide), e3 (Or.inl rfl)⟩

/-! ### Claim C9: the iframe-embedding middleware -/

/-- C9: after the middleware, X-Frame-Options is always the permissive
"ALLOWALL"; other headers are untouched; and for any non-empty CSP value, the
new CSP is the ";"-join of exactly the original clauses that do not contain
"frame-ancestors", kept in their original order (so every frame-ancestors
clause is stripped and the other clauses are retained). -/
theorem claim9_iframe_headers (h : Headers) :
    (AllowIframeMiddleware h).xFrameOptions = some "ALLOWALL" ∧
    (AllowIframeMiddleware h).others = h.others ∧
    ∀ c, h.csp = some c → c ≠ "" →
      ∃ L, (AllowIframeMiddleware h).csp = some (joinSemi L) ∧
        L = (cspSplit c).filter (fun part => !(hasFrameAncestors part)) ∧
        L.Sublist (cspSplit c) ∧
        ∀ part, part ∈ L ↔ part ∈ cspSplit c ∧ hasFrameAncestors part = false := by
  refine ⟨?_, ?_, ?_⟩
  · cases hc : h.csp with
    | none => simp [AllowIframeMiddleware, hc]
    | some c => by_cases he : c = "" <;> simp [AllowIframeMiddleware, hc, he]
  · cases hc : h.csp with
    | none => simp [AllowIframeMiddleware, hc]
    | some c => by_cases he : c = "" <;> simp [AllowIframeMiddleware, hc, he]
  · intro c hc hne
    refine ⟨_, ?_, rfl, List.filter_sublist _, ?_⟩
    · simp [AllowIframeMiddleware, hc, hne]
    · intro part
      simp [List.mem_filter]

/-- C9 (witness): a restrictive X-Frame-Options is replaced and the
frame-ancestors clause is stripped from a concrete CSP while the surrounding
clauses survive. -/
theorem claim9_witness :
    (AllowIframeMiddleware c9Headers).xFrameOptions = some "ALLOWALL" ∧
    (AllowIframeMiddleware c9Headers).others = c9Headers.others ∧
    (AllowIframeMiddleware c9Headers).csp = some "default-src a;img-src c" := by
  obtain ⟨hx, ho, hc⟩ := claim9_iframe_headers c9Headers
  obtain ⟨L, hL1, hL2, _, _⟩ := hc "default-src a;frame-ancestors b;img-src c" rfl
    (by decide)
  subst hL2
  refine ⟨hx, ho, ?_⟩
  rw [hL1]
  decide
